import Mathlib

/-!
Verification development for the threaded-comment subsystem of an
e-commerce backend (`CommentService` in
`src/modules/comment/comment.service.ts`, schema in
`src/modules/comment/schema/comment.schema.ts`).

The service is a sequence of store round-trips (find / insert / update) on a
single `comments` collection, plus a notification collaborator.  We embed it
shallowly:

* Mongo object ids are modelled by the strings the API receives; object ids
  round-trip through their hex-string form, so string equality is id
  equality (`OId := String`).
* The comment collection is a list of records (`Store := List CommentRec`);
  `find_one` is `List.find?`, a per-document update is a `List.map` guarded
  on the id.
* The store assigns the fresh `_id` and `created_at` of a new document;
  the embedding takes them as explicit parameters (`newId`, `now`).
* The notification collaborator is external (its code is not part of this
  repository); it is modelled by its interface only: a `notifOk` flag says
  whether `createNotification` resolves or rejects, and the outcome records
  the persisted-notification and realtime-push payloads actually dispatched.
* JavaScript string lengths count UTF-16 code units while Lean counts
  code points; the two agree on all BMP text (all literals in this service
  are BMP), so `String.take`/`String.length` model
  `substring(0, 50)`/`.length` faithfully here.
-/

/-- Object ids, as the strings exchanged with the API. -/
abbrev OId := String

/-- A hexadecimal digit, as accepted by `Types.ObjectId.isValid`. -/
def isHexChar (c : Char) : Bool :=
  c.isDigit || ('a' ≤ c && c ≤ 'f') || ('A' ≤ c && c ≤ 'F')

/-- `Types.ObjectId.isValid` on a string: a 24-character hex string, or any
12-character string (interpreted as 12 raw bytes). -/
def isValidObjectId (s : String) : Bool :=
  (s.length == 24 && s.toList.all isHexChar) || s.length == 12

/-- One document of the `comments` collection (schema `Comment` in
`comment.schema.ts`): `replies` defaults to `[]`, `reply_count` to `0`,
`is_deleted` to `false`, `parent_id` to `null`; `created_at` is the
store-assigned timestamp (modelled as a `Nat` tick). -/
structure CommentRec where
  _id : OId
  product_id : OId
  user_id : OId
  content : String
  parent_id : Option OId
  replies : List OId
  reply_count : Nat
  is_deleted : Bool
  created_at : Nat
deriving Repr, DecidableEq

/-- The comment collection. -/
abbrev Store := List CommentRec

/-- `findOne({_id, is_deleted: false})`. -/
def findActive (s : Store) (i : OId) : Option CommentRec :=
  s.find? (fun c => c._id == i && !c.is_deleted)

/-- `findById(id)` (no soft-delete filter). -/
def findById (s : Store) (i : OId) : Option CommentRec :=
  s.find? (fun c => c._id == i)

/-- A per-document update: apply `f` to every record whose `_id` is `i`
(a well-formed store holds at most one such record). -/
def updateById (s : Store) (i : OId) (f : CommentRec → CommentRec) : Store :=
  s.map (fun c => if c._id == i then f c else c)

/-- Body of `POST /comments` (`CreateCommentDto`). -/
structure CreateCommentDto where
  product_id : String
  content : String
  parent_id : Option String
deriving Repr, DecidableEq

/-- The service's error kinds: `BadRequestException`, `NotFoundException`,
`ForbiddenException`, plus a rejection propagated from the notification
collaborator. -/
inductive SvcError where
  | invalidArgument (msg : String)
  | notFound (msg : String)
  | forbidden (msg : String)
  | collaborator (msg : String)
deriving Repr, DecidableEq

/-- The user summary `populate('user_id', 'name avatar email role')` yields. -/
structure UserInfo where
  name : String
  avatar : Option String
deriving Repr, DecidableEq

/-- The product summary `populate('product_id', 'name slug')` yields. -/
structure ProductInfo where
  name : String
  slug : String
deriving Repr, DecidableEq

/-- The external collections `populate` draws from (users, products),
as total maps from id to summary. -/
structure Env where
  users : OId → UserInfo
  products : OId → ProductInfo

/-- Payload persisted through `notificationService.createNotification`
(metadata object flattened into fields). -/
structure NotifRecord where
  user_id : OId
  actor_id : OId
  type : String
  title : String
  message : String
  link : String
  reference_id : Option OId
  reference_kind : String
  comment_content : String
  meta_product_id : OId
  meta_product_name : String
  parent_comment_id : String
  is_notify : Bool
deriving Repr, DecidableEq

/-- Payload pushed through `notificationRealtimeService.notifyCommentReply`. -/
structure RealtimePush where
  target_user : OId
  type : String
  title : String
  message : String
  link : String
  actor_id : OId
  actor_name : String
  actor_avatar : Option String
  product_name : String
deriving Repr, DecidableEq

deriving instance DecidableEq for Except

/-- Everything observable about one `createComment` call: the value returned
or error thrown, the store afterwards, and the notification payloads
dispatched to the collaborator. -/
structure CreateOutcome where
  result : Except SvcError (Option CommentRec)
  store : Store
  persisted : List NotifRecord
  pushes : List RealtimePush
deriving Repr, DecidableEq

/-- The document `new this.commentModel({...})` builds in `createComment`:
schema defaults fill `replies = []`, `reply_count = 0`, `is_deleted = false`. -/
def newCommentRec (userId : String) (dto : CreateCommentDto) (newId : OId)
    (now : Nat) : CommentRec :=
  { _id := newId
    product_id := dto.product_id
    user_id := userId
    content := dto.content
    parent_id := dto.parent_id
    replies := []
    reply_count := 0
    is_deleted := false
    created_at := now }

/-- The parent update applied on reply creation:
`{$push: {replies: childId}, $inc: {reply_count: 1}}`. -/
def addReplyTo (childId : OId) (p : CommentRec) : CommentRec :=
  { p with replies := p.replies ++ [childId], reply_count := p.reply_count + 1 }

/-- `findByIdAndUpdate(parent, {$push: {replies: id}, $inc: {reply_count: 1}})`. -/
def pushReply (s : Store) (pid childId : OId) : Store :=
  updateById s pid (addReplyTo childId)

/-- `content.substring(0, 50)` plus `'...'` when `content.length > 50` —
the preview placed in the realtime message. -/
def contentPreview (content : String) : String :=
  content.take 50 ++ (if content.length > 50 then "..." else "")

/-- The deep link `/products-detail/[product]?comment=[parent]`. -/
def replyLink (productId pid : String) : String :=
  "/products-detail/" ++ productId ++ "?comment=" ++ pid

/-- The record handed to `createNotification` on a reply to someone else's
comment. -/
def mkNotifRecord (env : Env) (userId content : String) (newId pid : OId)
    (parent created : CommentRec) : NotifRecord :=
  let actor := env.users created.user_id
  let product := env.products created.product_id
  { user_id := parent.user_id
    actor_id := userId
    type := "comment_reply"
    title := "Có người trả lời bình luận của bạn"
    message := actor.name ++ " đã trả lời bình luận của bạn về sản phẩm \"" ++
      product.name ++ "\""
    link := replyLink created.product_id pid
    reference_id := some newId
    reference_kind := "comment"
    comment_content := content
    meta_product_id := created.product_id
    meta_product_name := product.name
    parent_comment_id := pid
    is_notify := false }

/-- The payload handed to `notifyCommentReply` on a reply to someone else's
comment. -/
def mkPush (env : Env) (content : String) (pid : OId)
    (parent created : CommentRec) : RealtimePush :=
  let actor := env.users created.user_id
  let product := env.products created.product_id
  { target_user := parent.user_id
    type := "comment_reply"
    title := "Có người trả lời bình luận của bạn"
    message := actor.name ++ " đã trả lời: \"" ++ contentPreview content ++ "\""
    link := replyLink created.product_id pid
    actor_id := created.user_id
    actor_name := actor.name
    actor_avatar := actor.avatar
    product_name := product.name }

/-- Tail of `createComment` after the parent checks: save the document,
update the parent's counters when this is a reply, re-fetch the created
comment, and run the notification block.  `parent?` is the parent looked up
earlier on the reply path (`none` for a top-level comment).  The
`createNotification` call is awaited with no surrounding try/catch, so when
the collaborator rejects (`notifOk = false`) the rejection propagates out of
`createComment`; the realtime push is only reached after it resolves. -/
def saveAndNotify (env : Env) (store : Store) (userId : String)
    (dto : CreateCommentDto) (newId : OId) (now : Nat) (notifOk : Bool)
    (parent? : Option CommentRec) : CreateOutcome :=
  let doc := newCommentRec userId dto newId now
  let store1 := store ++ [doc]
  match dto.parent_id with
  | none => ⟨.ok (findById store1 newId), store1, [], []⟩
  | some pid =>
      let store2 := pushReply store1 pid newId
      match parent?, findById store2 newId with
      | some parent, some created =>
          if parent.user_id != userId then
            if notifOk then
              ⟨.ok (some created), store2,
                [mkNotifRecord env userId dto.content newId pid parent created],
                [mkPush env dto.content pid parent created]⟩
            else
              ⟨.error (.collaborator "createNotification rejected"), store2, [], []⟩
          else
            ⟨.ok (some created), store2, [], []⟩
      | _, created? => ⟨.ok created?, store2, [], []⟩

/-- `CommentService.createComment(userId, dto)`.  Validates `product_id`,
then (on the reply path) validates `parent_id`, requires an existing
non-deleted parent, and rejects replies to replies; then saves, maintains the
parent's counters, and dispatches notifications. -/
def createComment (env : Env) (store : Store) (userId : String)
    (dto : CreateCommentDto) (newId : OId) (now : Nat) (notifOk : Bool) :
    CreateOutcome :=
  if !isValidObjectId dto.product_id then
    ⟨.error (.invalidArgument "product_id is invalid"), store, [], []⟩
  else
    match dto.parent_id with
    | some pid =>
        if !isValidObjectId pid then
          ⟨.error (.invalidArgument "parent_id is invalid"), store, [], []⟩
        else
          match findActive store pid with
          | none => ⟨.error (.notFound "Parent comment not found"), store, [], []⟩
          | some parent =>
              if parent.parent_id.isSome then
                ⟨.error (.invalidArgument
                  "Cannot reply to a reply. Maximum 2 levels allowed"),
                  store, [], []⟩
              else
                saveAndNotify env store userId dto newId now notifOk (some parent)
    | none => saveAndNotify env store userId dto newId now notifOk none

/-- Outcome of `updateComment`: returned comment (or error) and the store
afterwards. -/
structure UpdateOutcome where
  result : Except SvcError (Option CommentRec)
  store : Store
deriving Repr, DecidableEq

/-- `CommentService.updateComment(commentId, userId, dto)`: id validation,
active lookup, owner check, then content replacement — guarded by JavaScript
truthiness (`if (dto.content)`), so an absent or empty string leaves the
content untouched — and a re-fetch of the updated record. -/
def updateComment (store : Store) (commentId userId : String)
    (content? : Option String) : UpdateOutcome :=
  if !isValidObjectId commentId then
    ⟨.error (.invalidArgument "commentId is invalid"), store⟩
  else
    match findActive store commentId with
    | none => ⟨.error (.notFound "Comment not found"), store⟩
    | some c =>
        if c.user_id != userId then
          ⟨.error (.forbidden "You are not allowed to update this comment"), store⟩
        else
          let newContent := match content? with
            | some s => if s != "" then s else c.content
            | none => c.content
          let store1 := updateById store c._id (fun x => { x with content := newContent })
          ⟨.ok (findById store1 c._id), store1⟩

/-- Outcome of `deleteComment`: the success message (or error) and the store
afterwards. -/
structure DeleteOutcome where
  result : Except SvcError String
  store : Store
deriving Repr, DecidableEq

/-- `CommentService.deleteComment(commentId, userId, isAdmin)`: id validation,
active lookup (already-deleted records are invisible), authorization
(author, or admin override), then the soft delete; if the victim is a reply,
its id is filtered out of the parent's `replies` and `reply_count` is
recomputed as the filtered length. -/
def deleteComment (store : Store) (commentId userId : String) (isAdmin : Bool) :
    DeleteOutcome :=
  if !isValidObjectId commentId then
    ⟨.error (.invalidArgument "commentId is invalid"), store⟩
  else
    match findActive store commentId with
    | none => ⟨.error (.notFound "Comment not found"), store⟩
    | some c =>
        if !isAdmin && c.user_id != userId then
          ⟨.error (.forbidden "You are not allowed to delete this comment"), store⟩
        else
          let store1 := updateById store c._id (fun x => { x with is_deleted := true })
          let store2 := match c.parent_id with
            | some pid =>
                match findById store1 pid with
                | some parent =>
                    let kept := parent.replies.filter (fun i => i != commentId)
                    updateById store1 pid (fun x =>
                      { x with replies := kept, reply_count := kept.length })
                | none => store1
            | none => store1
          ⟨.ok "Comment deleted successfully", store2⟩

/-- The `pagination` object every listing endpoint returns. -/
structure Pagination where
  total : Nat
  page : Nat
  limit : Nat
  totalPages : Nat
deriving Repr, DecidableEq

/-- A page of comments plus its pagination header. -/
structure PageResult where
  comments : List CommentRec
  pagination : Pagination
deriving Repr, DecidableEq

/-- `Math.ceil(total / limit)` on naturals. -/
def ceilPages (total limit : Nat) : Nat :=
  (total + limit - 1) / limit

/-- Insert into a list sorted by `le` (Bool comparator). -/
def insertSorted (le : CommentRec → CommentRec → Bool) (a : CommentRec) :
    List CommentRec → List CommentRec
  | [] => [a]
  | b :: rest => if le a b then a :: b :: rest else b :: insertSorted le a rest

/-- Insertion sort by `le`; models the store's `sort` stage (the claims below
never depend on the relative order of ties). -/
def sortComments (le : CommentRec → CommentRec → Bool) :
    List CommentRec → List CommentRec
  | [] => []
  | a :: rest => insertSorted le a (sortComments le rest)

/-- `sort({created_at: 1})`. -/
def byCreatedAsc (a b : CommentRec) : Bool :=
  a.created_at ≤ b.created_at

/-- `sort({created_at: -1})`. -/
def byCreatedDesc (a b : CommentRec) : Bool :=
  b.created_at ≤ a.created_at

/-- Apply `skip((page-1)*limit).limit(limit)` to the sorted matches. -/
def pageSlice (page limit : Nat) (l : List CommentRec) : List CommentRec :=
  (l.drop ((page - 1) * limit)).take limit

/-- `CommentService.getReplies(commentId, page, limit)`: validates the id then
pages over the non-deleted comments whose `parent_id` equals the id, oldest
first.  No existence check is made on `commentId` itself. -/
def getReplies (store : Store) (commentId : String) (page limit : Nat) :
    Except SvcError PageResult :=
  if !isValidObjectId commentId then
    .error (.invalidArgument "commentId is invalid")
  else
    let matched := store.filter
      (fun c => c.parent_id == some commentId && !c.is_deleted)
    .ok ⟨pageSlice page limit (sortComments byCreatedAsc matched),
         ⟨matched.length, page, limit, ceilPages matched.length limit⟩⟩

/-- `needle` occurs as a contiguous run inside the second list. -/
def hasRun (needle : List Char) : List Char → Bool
  | [] => needle.isEmpty
  | c :: rest => needle.isPrefixOf (c :: rest) || hasRun needle rest

/-- `{$regex: search, $options: 'i'}` restricted to literal patterns: a
case-insensitive substring test (the claims below never instantiate
`search` with regex metacharacters). -/
def matchesSearch (search? : Option String) (c : CommentRec) : Bool :=
  match search? with
  | some s =>
      if s != "" then
        hasRun s.toLower.toList c.content.toLower.toList
      else true
  | none => true

/-- `CommentService.getAllCommentsAdmin(page, limit, productId, search)`:
pages over non-deleted top-level comments, newest first.  The `product_id`
filter is added only when `productId` is truthy AND a well-formed object id
(`if (productId && Types.ObjectId.isValid(productId))`); otherwise it is
silently dropped.  The `search` filter is added only when truthy. -/
def getAllCommentsAdmin (store : Store) (page limit : Nat)
    (productId? search? : Option String) : PageResult :=
  let prodFilter : Option String := match productId? with
    | some p => if p != "" && isValidObjectId p then some p else none
    | none => none
  let matched := store.filter (fun c =>
    !c.is_deleted && c.parent_id == none
      && (match prodFilter with
          | some p => c.product_id == p
          | none => true)
      && matchesSearch search? c)
  ⟨pageSlice page limit (sortComments byCreatedDesc matched),
   ⟨matched.length, page, limit, ceilPages matched.length limit⟩⟩

/-- `CommentService.adminReplyComment(commentId, userId, dto)`: validates and
resolves the target comment (active lookup), then rebuilds the dto — product
taken from the target, `parent_id := commentId`, only `content` kept from the
request — and forwards to `createComment`. -/
def adminReplyComment (env : Env) (store : Store) (commentId userId : String)
    (dto : CreateCommentDto) (newId : OId) (now : Nat) (notifOk : Bool) :
    CreateOutcome :=
  if !isValidObjectId commentId then
    ⟨.error (.invalidArgument "commentId is invalid"), store, [], []⟩
  else
    match findActive store commentId with
    | none => ⟨.error (.notFound "Comment not found"), store, [], []⟩
    | some parent =>
        let replyDto : CreateCommentDto :=
          { product_id := parent.product_id
            content := dto.content
            parent_id := some commentId }
        createComment env store userId replyDto newId now notifOk

/-! ## Store well-formedness

`createComment` relies on the store's guarantees: Mongo assigns each inserted
document a distinct `_id` (so ids are pairwise distinct and a fresh id is
unused), and every persisted reply was created against a then-existing
top-level parent that is never hard-deleted, so a reply's parent record is
present and top-level. -/

/-- The store holds no two records with the same `_id`. -/
abbrev idsNodup (s : Store) : Prop := (s.map (fun c => c._id)).Nodup

/-- `i` is unused as an `_id` in the store (a fresh id for insertion). -/
abbrev freshId (s : Store) (i : OId) : Prop := ∀ c ∈ s, c._id ≠ i

/-- Executable check: every reply's parent record is present and top-level. -/
def repliesWF (s : Store) : Bool :=
  s.all (fun c =>
    match c.parent_id with
    | some pid => s.any (fun p => p._id == pid && p.parent_id == none)
    | none => true)

/-- Every reply in the store has a parent record that is present and
top-level. -/
def repliesWellFormed (s : Store) : Prop :=
  ∀ c ∈ s, ∀ pid, c.parent_id = some pid →
    ∃ p, p ∈ s ∧ p._id = pid ∧ p.parent_id = none

instance (s : Store) : Decidable (repliesWellFormed s) :=
  decidable_of_iff (repliesWF s = true) (by
    unfold repliesWF repliesWellFormed
    rw [List.all_eq_true]
    constructor
    · intro h c hc pid hpid
      have h2 := h c hc
      rw [hpid] at h2
      simp only [List.any_eq_true, Bool.and_eq_true, beq_iff_eq] at h2
      obtain ⟨p, hp, h3, h4⟩ := h2
      exact ⟨p, hp, h3, h4⟩
    · intro h c hc
      cases hpid : c.parent_id with
      | none => rfl
      | some pid =>
          obtain ⟨p, hp, h3, h4⟩ := h c hc pid hpid
          simp only [List.any_eq_true, Bool.and_eq_true, beq_iff_eq]
          exact ⟨p, hp, h3, h4⟩)

/-! ## Concrete fixtures

Well-formed 24-hex object ids, a user/product environment, and small stores
used by the closed witnesses and counterexamples below. -/

def oidA : OId := "aaaaaaaaaaaaaaaaaaaaaaaa"

def oidB : OId := "bbbbbbbbbbbbbbbbbbbbbbbb"

def oidC : OId := "cccccccccccccccccccccccc"

def oidP : OId := "dddddddddddddddddddddddd"

def oidQ : OId := "eeeeeeeeeeeeeeeeeeeeeeee"

def env0 : Env :=
  ⟨fun _ => ⟨"An", none⟩, fun _ => ⟨"Ao thun", "ao-thun"⟩⟩

/-- A lone top-level comment by user `u1`. -/
def topComment1 : CommentRec :=
  ⟨oidA, oidP, "u1", "Good product", none, [], 0, false, 1⟩

def store1 : Store := [topComment1]

/-- A top-level comment by `u1` that already has one reply... -/
def topComment : CommentRec :=
  ⟨oidA, oidP, "u1", "Good product", none, [oidB], 1, false, 1⟩

/-- ...namely this reply by `u2`. -/
def replyComment : CommentRec :=
  ⟨oidB, oidP, "u2", "I agree", some oidA, [], 0, false, 2⟩

def store2L : Store := [topComment, replyComment]

/-- The same top-level comment after a soft delete, its reply left live. -/
def deletedTop : CommentRec :=
  ⟨oidA, oidP, "u1", "Good product", none, [oidB], 1, true, 1⟩

def storeOrphan : Store := [deletedTop, replyComment]

/-- The parent update applied when a reply is soft-deleted: the deleted id is
filtered out of `replies` and `reply_count` is recomputed as the filtered
length (the update `deleteComment` performs on the parent). -/
def removeReplyFrom (cid : String) (p : CommentRec) : CommentRec :=
  let kept := p.replies.filter (fun i => i != cid)
  { p with replies := kept, reply_count := kept.length }

/-! ## Store lemmas -/

lemma findActive_spec {s : Store} {i : OId} {c : CommentRec}
    (h : findActive s i = some c) : c ∈ s ∧ c._id = i ∧ c.is_deleted = false := by
  have hmem := List.mem_of_find?_eq_some h
  have hp := List.find?_some h
  simp only [Bool.and_eq_true, beq_iff_eq, Bool.not_eq_true'] at hp
  exact ⟨hmem, hp.1, hp.2⟩

lemma findById_spec {s : Store} {i : OId} {c : CommentRec}
    (h : findById s i = some c) : c ∈ s ∧ c._id = i := by
  have hmem := List.mem_of_find?_eq_some h
  have hp := List.find?_some h
  simp only [beq_iff_eq] at hp
  exact ⟨hmem, hp⟩

lemma eq_of_mem_idsNodup {s : Store} {x y : CommentRec} (hnd : idsNodup s)
    (hx : x ∈ s) (hy : y ∈ s) (hid : x._id = y._id) : x = y :=
  List.inj_on_of_nodup_map hnd hx hy hid

lemma findById_append_fresh {s : Store} {d : CommentRec}
    (h : freshId s d._id) : findById (s ++ [d]) d._id = some d := by
  unfold findById
  rw [List.find?_append]
  have h1 : s.find? (fun c => c._id == d._id) = none := by
    rw [List.find?_eq_none]
    intro x hx
    simp [h x hx]
  rw [h1]
  simp

lemma findById_append_left {s t : Store} {i : OId} {c : CommentRec}
    (h : findById s i = some c) : findById (s ++ t) i = some c := by
  unfold findById at *
  rw [List.find?_append, h]
  rfl

lemma findById_updateById (s : Store) (i j : OId) (f : CommentRec → CommentRec)
    (hf : ∀ c, (f c)._id = c._id) :
    findById (updateById s i f) j =
      (findById s j).map (fun c => if c._id == i then f c else c) := by
  unfold findById updateById
  rw [List.find?_map]
  have hpred : ((fun c => c._id == j) ∘ fun c => if c._id == i then f c else c) =
      (fun c => c._id == j) := by
    funext c
    by_cases hc : c._id = i
    · simp [hc, hf]
    · simp [hc]
  rw [hpred]

lemma findActive_findById {s : Store} {i : OId} {c : CommentRec}
    (hnd : idsNodup s) (h : findActive s i = some c) : findById s i = some c := by
  induction s with
  | nil => simp [findActive] at h
  | cons a rest ih =>
      have hnd2 : (a._id :: rest.map (fun c => c._id)).Nodup := by
        simpa [idsNodup] using hnd
      have hnd' : idsNodup rest := (List.nodup_cons.mp hnd2).2
      have hnotin : a._id ∉ rest.map (fun c => c._id) :=
        (List.nodup_cons.mp hnd2).1
      by_cases ha : a._id = i
      · -- head has the id; active lookup either returns it or nothing
        by_cases hdel : a.is_deleted
        · exfalso
          have hrest : findActive rest i = some c := by
            unfold findActive at h ⊢
            rw [List.find?_cons_of_neg] at h
            · exact h
            · simp [ha, hdel]
          obtain ⟨hcm, hcid, _⟩ := findActive_spec hrest
          exact hnotin (by
            rw [ha, ← hcid]
            exact List.mem_map_of_mem (fun c => c._id) hcm)
        · have : a = c := by
            unfold findActive at h
            rw [List.find?_cons_of_pos] at h
            · exact Option.some.inj h
            · simp [ha, hdel]
          unfold findById
          rw [List.find?_cons_of_pos]
          · rw [this]
          · simp [ha]
      · have hrest : findActive rest i = some c := by
          unfold findActive at h
          rw [List.find?_cons_of_neg] at h
          · exact h
          · simp [ha]
        unfold findById
        rw [List.find?_cons_of_neg]
        · exact ih hnd' hrest
        · simp [ha]

lemma findActive_none_of_deleted {s : Store} {i : OId} {c : CommentRec}
    (hnd : idsNodup s) (hm : c ∈ s) (hid : c._id = i)
    (hdel : c.is_deleted = true) : findActive s i = none := by
  unfold findActive
  rw [List.find?_eq_none]
  intro x hx hcontra
  simp only [Bool.and_eq_true, beq_iff_eq, Bool.not_eq_true'] at hcontra
  have hxc : x = c := eq_of_mem_idsNodup hnd hx hm (by rw [hcontra.1, hid])
  rw [hxc, hdel] at hcontra
  exact absurd hcontra.2 (by simp)

/-! ## The reply path of `createComment` -/

lemma findById_after_reply {store : Store} {pid newId : OId} {parent : CommentRec}
    (doc : CommentRec) (hdoc : doc._id = newId)
    (hfind : findActive store pid = some parent)
    (hnd : idsNodup store) (hfresh : freshId store newId) :
    findById (pushReply (store ++ [doc]) pid newId) newId = some doc ∧
    findById (pushReply (store ++ [doc]) pid newId) pid =
      some (addReplyTo newId parent) := by
  obtain ⟨hpm, hpid, hpdel⟩ := findActive_spec hfind
  have hne : pid ≠ newId := fun h => hfresh parent hpm (hpid.trans h)
  have hf : ∀ c : CommentRec, (addReplyTo newId c)._id = c._id := fun _ => rfl
  constructor
  · rw [pushReply, findById_updateById _ _ _ _ hf]
    have h1 : findById (store ++ [doc]) newId = some doc := by
      have h2 := findById_append_fresh (s := store) (d := doc)
        (by rw [hdoc]; exact hfresh)
      rwa [hdoc] at h2
    rw [h1]
    simp [hdoc, hne.symm]
  · rw [pushReply, findById_updateById _ _ _ _ hf]
    have h1 : findById (store ++ [doc]) pid = some parent :=
      findById_append_left (findActive_findById hnd hfind)
    rw [h1]
    simp [hpid]

lemma createComment_reply_eq (env : Env) (store : Store) (userId : String)
    (dto : CreateCommentDto) (newId : OId) (now : Nat) (notifOk : Bool)
    {pid : OId} {parent : CommentRec}
    (hv : isValidObjectId dto.product_id = true)
    (hp : dto.parent_id = some pid)
    (hvp : isValidObjectId pid = true)
    (hfind : findActive store pid = some parent)
    (htop : parent.parent_id = none)
    (hnd : idsNodup store)
    (hfresh : freshId store newId) :
    createComment env store userId dto newId now notifOk =
      (if parent.user_id != userId then
        if notifOk then
          ⟨.ok (some (newCommentRec userId dto newId now)),
            pushReply (store ++ [newCommentRec userId dto newId now]) pid newId,
            [mkNotifRecord env userId dto.content newId pid parent
              (newCommentRec userId dto newId now)],
            [mkPush env dto.content pid parent (newCommentRec userId dto newId now)]⟩
        else
          ⟨.error (.collaborator "createNotification rejected"),
            pushReply (store ++ [newCommentRec userId dto newId now]) pid newId,
            [], []⟩
      else
        ⟨.ok (some (newCommentRec userId dto newId now)),
          pushReply (store ++ [newCommentRec userId dto newId now]) pid newId,
          [], []⟩) := by
  have hdoc : (newCommentRec userId dto newId now)._id = newId := rfl
  have hrefetch :=
    (findById_after_reply (newCommentRec userId dto newId now) hdoc hfind hnd hfresh).1
  obtain ⟨dprod, dcont, dpar⟩ := dto
  simp only [CreateCommentDto.parent_id] at hp
  subst hp
  simp only [createComment, saveAndNotify, hv, hvp, hfind, htop, hrefetch,
    Bool.not_true, Bool.false_eq_true, if_false, Option.isSome_none]

lemma createComment_top_eq (env : Env) (store : Store) (userId : String)
    (dto : CreateCommentDto) (newId : OId) (now : Nat) (notifOk : Bool)
    (hv : isValidObjectId dto.product_id = true)
    (hp : dto.parent_id = none)
    (hfresh : freshId store newId) :
    createComment env store userId dto newId now notifOk =
      ⟨.ok (some (newCommentRec userId dto newId now)),
        store ++ [newCommentRec userId dto newId now], [], []⟩ := by
  have hdoc : (newCommentRec userId dto newId now)._id = newId := rfl
  have h1 : findById (store ++ [newCommentRec userId dto newId now]) newId =
      some (newCommentRec userId dto newId now) := by
    have h2 := findById_append_fresh (s := store)
      (d := newCommentRec userId dto newId now) (by rw [hdoc]; exact hfresh)
    rwa [hdoc] at h2
  obtain ⟨dprod, dcont, dpar⟩ := dto
  simp only [CreateCommentDto.parent_id] at hp
  subst hp
  simp only [createComment, saveAndNotify, hv, h1, Bool.not_true,
    Bool.false_eq_true, if_false]

lemma saveAndNotify_store (env : Env) (store : Store) (userId : String)
    (dto : CreateCommentDto) (newId : OId) (now : Nat) (notifOk : Bool)
    (parent? : Option CommentRec) :
    (saveAndNotify env store userId dto newId now notifOk parent?).store =
      match dto.parent_id with
      | none => store ++ [newCommentRec userId dto newId now]
      | some pid =>
          pushReply (store ++ [newCommentRec userId dto newId now]) pid newId := by
  obtain ⟨dprod, dcont, dpar⟩ := dto
  cases dpar with
  | none => rfl
  | some pid =>
      simp only [saveAndNotify]
      cases parent? with
      | none => rfl
      | some parent =>
          cases findById (pushReply
              (store ++ [newCommentRec userId ⟨dprod, dcont, some pid⟩ newId now])
              pid newId) newId with
          | none => rfl
          | some created =>
              dsimp only
              by_cases hne : (parent.user_id != userId) = true
              · rw [if_pos hne]
                by_cases hok : notifOk = true
                · rw [if_pos hok]
                · rw [if_neg hok]
              · rw [if_neg hne]

lemma createComment_store_shape (env : Env) (store : Store) (userId : String)
    (dto : CreateCommentDto) (newId : OId) (now : Nat) (notifOk : Bool) :
    (createComment env store userId dto newId now notifOk).store = store ∨
    (dto.parent_id = none ∧
      (createComment env store userId dto newId now notifOk).store =
        store ++ [newCommentRec userId dto newId now]) ∨
    (∃ pid parent, dto.parent_id = some pid ∧
      findActive store pid = some parent ∧ parent.parent_id = none ∧
      (createComment env store userId dto newId now notifOk).store =
        pushReply (store ++ [newCommentRec userId dto newId now]) pid newId) := by
  unfold createComment
  by_cases hv : isValidObjectId dto.product_id
  case neg => left; simp [hv]
  rw [hv]
  simp only [Bool.not_true, Bool.false_eq_true, if_false]
  cases hd : dto.parent_id with
  | none =>
      right; left
      refine ⟨rfl, ?_⟩
      rw [saveAndNotify_store, hd]
  | some pid =>
      dsimp only
      by_cases hvp : isValidObjectId pid
      case neg => left; simp [hvp]
      rw [hvp]
      simp only [Bool.not_true, Bool.false_eq_true, if_false]
      cases hf : findActive store pid with
      | none => left; rfl
      | some parent =>
          cases htop : parent.parent_id with
          | some gp => left; simp [htop]
          | none =>
              right; right
              refine ⟨pid, parent, rfl, hf, htop, ?_⟩
              simp only [htop, Option.isSome_none, Bool.false_eq_true, if_false]
              rw [saveAndNotify_store, hd]

lemma repliesWellFormed_append_top {s : Store} {d : CommentRec}
    (h : repliesWellFormed s) (hd : d.parent_id = none) :
    repliesWellFormed (s ++ [d]) := by
  intro c hc pid hpid
  rcases List.mem_append.mp hc with hc' | hc'
  · obtain ⟨p, hp, h1, h2⟩ := h c hc' pid hpid
    exact ⟨p, List.mem_append_left _ hp, h1, h2⟩
  · have : c = d := by simpa using hc'
    subst this
    rw [hd] at hpid
    cases hpid

lemma repliesWellFormed_reply {s : Store} {d : CommentRec} {pid newId : OId}
    {parent : CommentRec}
    (h : repliesWellFormed s)
    (hfind : findActive s pid = some parent) (htop : parent.parent_id = none)
    (hd : d.parent_id = some pid) :
    repliesWellFormed (pushReply (s ++ [d]) pid newId) := by
  obtain ⟨hpm, hpid, _⟩ := findActive_spec hfind
  have hgid : ∀ x : CommentRec,
      (if x._id == pid then addReplyTo newId x else x)._id = x._id := by
    intro x; by_cases hx : x._id = pid <;> simp [hx, addReplyTo]
  have hgpar : ∀ x : CommentRec,
      (if x._id == pid then addReplyTo newId x else x).parent_id = x.parent_id := by
    intro x; by_cases hx : x._id = pid <;> simp [hx, addReplyTo]
  intro c hc q hq
  rw [pushReply, updateById] at hc
  obtain ⟨y, hy, rfl⟩ := List.mem_map.mp hc
  rw [hgpar y] at hq
  rcases List.mem_append.mp hy with hy' | hy'
  · obtain ⟨p, hp, h1, h2⟩ := h y hy' q hq
    refine ⟨(if p._id == pid then addReplyTo newId p else p), ?_, ?_, ?_⟩
    · rw [pushReply, updateById]
      exact List.mem_map_of_mem _ (List.mem_append_left _ hp)
    · rw [hgid p]; exact h1
    · rw [hgpar p]; exact h2
  · have hyd : y = d := by simpa using hy'
    subst hyd
    rw [hd] at hq
    cases hq
    refine ⟨(if parent._id == pid then addReplyTo newId parent else parent),
      ?_, ?_, ?_⟩
    · rw [pushReply, updateById]
      exact List.mem_map_of_mem _ (List.mem_append_left _ hpm)
    · rw [hgid parent]; exact hpid
    · rw [hgpar parent]; exact htop

lemma createComment_preserves_wf (env : Env) (store : Store) (userId : String)
    (dto : CreateCommentDto) (newId : OId) (now : Nat) (notifOk : Bool)
    (h : repliesWellFormed store) :
    repliesWellFormed (createComment env store userId dto newId now notifOk).store := by
  rcases createComment_store_shape env store userId dto newId now notifOk with
    hs | ⟨hd, hs⟩ | ⟨pid, parent, hd, hf, htop, hs⟩
  · rw [hs]; exact h
  · rw [hs]
    exact repliesWellFormed_append_top h (by simpa [newCommentRec] using hd)
  · rw [hs]
    exact repliesWellFormed_reply h hf htop (by simpa [newCommentRec] using hd)

/-- Rejection of a reply to a reply: the depth check fires before any write,
so the store is returned untouched and nothing is dispatched. -/
lemma createComment_depth_reject (env : Env) (store : Store) (userId : String)
    (dto : CreateCommentDto) (newId : OId) (now : Nat) (notifOk : Bool)
    {pid gp : OId} {parent : CommentRec}
    (hv : isValidObjectId dto.product_id = true)
    (hp : dto.parent_id = some pid)
    (hvp : isValidObjectId pid = true)
    (hfind : findActive store pid = some parent)
    (hdeep : parent.parent_id = some gp) :
    createComment env store userId dto newId now notifOk =
      ⟨.error (.invalidArgument "Cannot reply to a reply. Maximum 2 levels allowed"),
        store, [], []⟩ := by
  obtain ⟨dprod, dcont, dpar⟩ := dto
  simp only [CreateCommentDto.parent_id] at hp
  subst hp
  simp only [createComment, hv, hvp, hfind, hdeep, Bool.not_true,
    Bool.false_eq_true, if_false, Option.isSome_some, if_true]

/-- Successful reply creation (collaborator resolves): the returned value and
the store, independent of whether the reply is a self-reply. -/
lemma createComment_reply_success (env : Env) (store : Store) (userId : String)
    (dto : CreateCommentDto) (newId : OId) (now : Nat)
    {pid : OId} {parent : CommentRec}
    (hv : isValidObjectId dto.product_id = true)
    (hp : dto.parent_id = some pid)
    (hvp : isValidObjectId pid = true)
    (hfind : findActive store pid = some parent)
    (htop : parent.parent_id = none)
    (hnd : idsNodup store)
    (hfresh : freshId store newId) :
    (createComment env store userId dto newId now true).result =
      .ok (some (newCommentRec userId dto newId now)) ∧
    (createComment env store userId dto newId now true).store =
      pushReply (store ++ [newCommentRec userId dto newId now]) pid newId := by
  have heq := createComment_reply_eq env store userId dto newId now true
    hv hp hvp hfind htop hnd hfresh
  by_cases hb : (parent.user_id != userId) = true
  · rw [heq, if_pos hb, if_pos rfl]; exact ⟨rfl, rfl⟩
  · rw [heq, if_neg hb]; exact ⟨rfl, rfl⟩

/-! ## Claims -/

/-- C1, as stated, is false on the code: `createNotification` is awaited with
no try/catch, so its rejection propagates out of `createComment`.  Concrete
run: `u2` replies to `u1`'s comment and the collaborator rejects — the call
returns an error, not the created comment. -/
theorem c1_counterexample :
    (createComment env0 store1 "u2" ⟨oidP, "I agree", some oidA⟩ oidB 2
      false).result =
      .error (.collaborator "createNotification rejected") := by decide

/-- C1 (amended): when `create_notification` rejects during a reply to
someone else's comment, `createComment` does not complete successfully — the
rejection propagates to the caller.  The comment insert and the parent
counter update, performed before the notification call, are not rolled back:
the new comment and the updated parent are in the resulting store.  No
notification is persisted and no realtime push is made. -/
theorem c1_notification_failure_propagates :
    ∀ (env : Env) (store : Store) (userId : String) (dto : CreateCommentDto)
      (newId : OId) (now : Nat) (pid : OId) (parent : CommentRec),
      isValidObjectId dto.product_id = true →
      dto.parent_id = some pid →
      isValidObjectId pid = true →
      findActive store pid = some parent →
      parent.parent_id = none →
      idsNodup store →
      freshId store newId →
      parent.user_id ≠ userId →
      (createComment env store userId dto newId now false).result =
          .error (.collaborator "createNotification rejected") ∧
        (createComment env store userId dto newId now false).store =
          pushReply (store ++ [newCommentRec userId dto newId now]) pid newId ∧
        findById (createComment env store userId dto newId now false).store
            newId = some (newCommentRec userId dto newId now) ∧
        findById (createComment env store userId dto newId now false).store
            pid = some (addReplyTo newId parent) ∧
        (createComment env store userId dto newId now false).persisted = [] ∧
        (createComment env store userId dto newId now false).pushes = [] := by
  intro env store userId dto newId now pid parent hv hp hvp hfind htop hnd
    hfresh hne
  have heq := createComment_reply_eq env store userId dto newId now false
    hv hp hvp hfind htop hnd hfresh
  have hnb : (parent.user_id != userId) = true := by
    simpa [bne_iff_ne] using hne
  obtain ⟨h1, h2⟩ :=
    findById_after_reply (newCommentRec userId dto newId now) rfl hfind hnd
      hfresh
  rw [heq, if_pos hnb, if_neg (by simp)]
  exact ⟨rfl, rfl, h1, h2, rfl, rfl⟩

theorem c1_witness :
    (createComment env0 store1 "u2" ⟨oidP, "I agree", some oidA⟩ oidB 2
        false).result =
      .error (.collaborator "createNotification rejected") ∧
    (createComment env0 store1 "u2" ⟨oidP, "I agree", some oidA⟩ oidB 2
        false).store =
      pushReply
        (store1 ++ [newCommentRec "u2" ⟨oidP, "I agree", some oidA⟩ oidB 2])
        oidA oidB ∧
    findById (createComment env0 store1 "u2" ⟨oidP, "I agree", some oidA⟩
        oidB 2 false).store oidB =
      some (newCommentRec "u2" ⟨oidP, "I agree", some oidA⟩ oidB 2) ∧
    findById (createComment env0 store1 "u2" ⟨oidP, "I agree", some oidA⟩
        oidB 2 false).store oidA =
      some (addReplyTo oidB topComment1) ∧
    (createComment env0 store1 "u2" ⟨oidP, "I agree", some oidA⟩ oidB 2
        false).persisted = [] ∧
    (createComment env0 store1 "u2" ⟨oidP, "I agree", some oidA⟩ oidB 2
        false).pushes = [] :=
  c1_notification_failure_propagates env0 store1 "u2"
    ⟨oidP, "I agree", some oidA⟩ oidB 2 oidA topComment1
    (by decide) rfl (by decide) (by decide) rfl (by decide) (by decide)
    (by decide)

/-- C2: replying to a comment that is itself a reply fails with
`InvalidArgument` ("maximum 2 levels") before anything is written — the
store is returned unchanged and nothing is dispatched — and (second
conjunct) `createComment` preserves the invariant that every stored reply's
parent record is present and top-level. -/
theorem c2_reply_depth_enforced :
    (∀ (env : Env) (store : Store) (userId : String) (dto : CreateCommentDto)
      (newId : OId) (now : Nat) (notifOk : Bool) (pid gp : OId)
      (parent : CommentRec),
      isValidObjectId dto.product_id = true →
      dto.parent_id = some pid →
      isValidObjectId pid = true →
      findActive store pid = some parent →
      parent.parent_id = some gp →
      createComment env store userId dto newId now notifOk =
        ⟨.error (.invalidArgument
          "Cannot reply to a reply. Maximum 2 levels allowed"),
          store, [], []⟩) ∧
    (∀ (env : Env) (store : Store) (userId : String) (dto : CreateCommentDto)
      (newId : OId) (now : Nat) (notifOk : Bool),
      repliesWellFormed store →
      repliesWellFormed
        (createComment env store userId dto newId now notifOk).store) :=
  ⟨fun env store userId dto newId now notifOk _pid _gp _parent hv hp hvp
      hfind hdeep =>
    createComment_depth_reject env store userId dto newId now notifOk
      hv hp hvp hfind hdeep,
   fun env store userId dto newId now notifOk h =>
    createComment_preserves_wf env store userId dto newId now notifOk h⟩

theorem c2_witness :
    createComment env0 store2L "u3" ⟨oidP, "reply to reply", some oidB⟩ oidC
        3 true =
      ⟨.error (.invalidArgument
        "Cannot reply to a reply. Maximum 2 levels allowed"),
        store2L, [], []⟩ ∧
    repliesWellFormed
      (createComment env0 store2L "u3" ⟨oidP, "reply to reply", some oidB⟩
        oidC 3 true).store :=
  ⟨c2_reply_depth_enforced.1 env0 store2L "u3"
      ⟨oidP, "reply to reply", some oidB⟩ oidC 3 true oidB oidA replyComment
      (by decide) rfl (by decide) (by decide) rfl,
   c2_reply_depth_enforced.2 env0 store2L "u3"
      ⟨oidP, "reply to reply", some oidB⟩ oidC 3 true (by decide)⟩

/-- C3: a valid top-level creation persists exactly the new record —
`parent_id = null`, `reply_count = 0` — and returns it; a valid reply
creation (parent existing, non-deleted, top-level) persists the new record
with `reply_count = 0`, `replies = []`, `is_deleted = false`, and updates the
parent record so that its `replies` gains exactly the new id and its
`reply_count` rises by exactly 1. -/
theorem c3_create_postconditions :
    (∀ (env : Env) (store : Store) (userId : String) (dto : CreateCommentDto)
      (newId : OId) (now : Nat) (notifOk : Bool),
      isValidObjectId dto.product_id = true →
      dto.parent_id = none →
      freshId store newId →
      createComment env store userId dto newId now notifOk =
        ⟨.ok (some (newCommentRec userId dto newId now)),
          store ++ [newCommentRec userId dto newId now], [], []⟩ ∧
      (newCommentRec userId dto newId now).parent_id = none ∧
      (newCommentRec userId dto newId now).reply_count = 0) ∧
    (∀ (env : Env) (store : Store) (userId : String) (dto : CreateCommentDto)
      (newId : OId) (now : Nat) (pid : OId) (parent : CommentRec),
      isValidObjectId dto.product_id = true →
      dto.parent_id = some pid →
      isValidObjectId pid = true →
      findActive store pid = some parent →
      parent.parent_id = none →
      idsNodup store →
      freshId store newId →
      (createComment env store userId dto newId now true).result =
          .ok (some (newCommentRec userId dto newId now)) ∧
        (newCommentRec userId dto newId now).reply_count = 0 ∧
        (newCommentRec userId dto newId now).replies = [] ∧
        (newCommentRec userId dto newId now).is_deleted = false ∧
        findById (createComment env store userId dto newId now true).store
          newId = some (newCommentRec userId dto newId now) ∧
        findById (createComment env store userId dto newId now true).store
          pid = some (addReplyTo newId parent) ∧
        (addReplyTo newId parent).replies = parent.replies ++ [newId] ∧
        (addReplyTo newId parent).reply_count = parent.reply_count + 1) := by
  constructor
  · intro env store userId dto newId now notifOk hv hp hfresh
    exact ⟨createComment_top_eq env store userId dto newId now notifOk
      hv hp hfresh, hp, rfl⟩
  · intro env store userId dto newId now pid parent hv hp hvp hfind htop hnd
      hfresh
    obtain ⟨hres, hstore⟩ := createComment_reply_success env store userId dto
      newId now hv hp hvp hfind htop hnd hfresh
    obtain ⟨h1, h2⟩ :=
      findById_after_reply (newCommentRec userId dto newId now) rfl hfind hnd
        hfresh
    refine ⟨hres, rfl, rfl, rfl, ?_, ?_, rfl, rfl⟩
    · rw [hstore]; exact h1
    · rw [hstore]; exact h2

theorem c3_witness :
    (createComment env0 store1 "u1" ⟨oidP, "Nice", none⟩ oidC 3 true =
        ⟨.ok (some (newCommentRec "u1" ⟨oidP, "Nice", none⟩ oidC 3)),
          store1 ++ [newCommentRec "u1" ⟨oidP, "Nice", none⟩ oidC 3],
          [], []⟩ ∧
      (newCommentRec "u1" ⟨oidP, "Nice", none⟩ oidC 3).parent_id = none ∧
      (newCommentRec "u1" ⟨oidP, "Nice", none⟩ oidC 3).reply_count = 0) ∧
    ((createComment env0 store1 "u2" ⟨oidP, "I agree", some oidA⟩ oidB 2
          true).result =
        .ok (some (newCommentRec "u2" ⟨oidP, "I agree", some oidA⟩ oidB 2)) ∧
      (newCommentRec "u2" ⟨oidP, "I agree", some oidA⟩ oidB 2).reply_count
          = 0 ∧
      (newCommentRec "u2" ⟨oidP, "I agree", some oidA⟩ oidB 2).replies
          = [] ∧
      (newCommentRec "u2" ⟨oidP, "I agree", some oidA⟩ oidB 2).is_deleted
          = false ∧
      findById (createComment env0 store1 "u2"
          ⟨oidP, "I agree", some oidA⟩ oidB 2 true).store oidB =
        some (newCommentRec "u2" ⟨oidP, "I agree", some oidA⟩ oidB 2) ∧
      findById (createComment env0 store1 "u2"
          ⟨oidP, "I agree", some oidA⟩ oidB 2 true).store oidA =
        some (addReplyTo oidB topComment1) ∧
      (addReplyTo oidB topComment1).replies = topComment1.replies ++ [oidB] ∧
      (addReplyTo oidB topComment1).reply_count
          = topComment1.reply_count + 1) :=
  ⟨c3_create_postconditions.1 env0 store1 "u1" ⟨oidP, "Nice", none⟩ oidC 3
      true (by decide) rfl (by decide),
   c3_create_postconditions.2 env0 store1 "u2" ⟨oidP, "I agree", some oidA⟩
      oidB 2 oidA topComment1 (by decide) rfl (by decide) (by decide) rfl
      (by decide) (by decide)⟩

/-- C5: on a successful reply to someone else's comment exactly one
notification is persisted and exactly one realtime push is sent, both
addressed to the parent comment's author and carrying the actor's identity;
the push message carries the first 50 characters of the new content with an
ellipsis appended exactly when the content is longer than 50; on a self-reply
(`parent.user_id = userId`) no notification call of either kind is made and
the creation still succeeds. -/
theorem c5_reply_notification :
    (∀ (env : Env) (store : Store) (userId : String) (dto : CreateCommentDto)
      (newId : OId) (now : Nat) (pid : OId) (parent : CommentRec),
      isValidObjectId dto.product_id = true →
      dto.parent_id = some pid →
      isValidObjectId pid = true →
      findActive store pid = some parent →
      parent.parent_id = none →
      idsNodup store →
      freshId store newId →
      parent.user_id ≠ userId →
      (createComment env store userId dto newId now true).result =
          .ok (some (newCommentRec userId dto newId now)) ∧
        (createComment env store userId dto newId now true).persisted =
          [mkNotifRecord env userId dto.content newId pid parent
            (newCommentRec userId dto newId now)] ∧
        (createComment env store userId dto newId now true).pushes =
          [mkPush env dto.content pid parent
            (newCommentRec userId dto newId now)] ∧
        (mkNotifRecord env userId dto.content newId pid parent
          (newCommentRec userId dto newId now)).user_id = parent.user_id ∧
        (mkNotifRecord env userId dto.content newId pid parent
          (newCommentRec userId dto newId now)).actor_id = userId ∧
        (mkPush env dto.content pid parent
          (newCommentRec userId dto newId now)).target_user =
            parent.user_id ∧
        (mkPush env dto.content pid parent
          (newCommentRec userId dto newId now)).actor_id = userId ∧
        (mkPush env dto.content pid parent
          (newCommentRec userId dto newId now)).actor_name =
            (env.users userId).name ∧
        (mkPush env dto.content pid parent
          (newCommentRec userId dto newId now)).message =
            (env.users userId).name ++ " đã trả lời: \"" ++
              (dto.content.take 50 ++
                (if dto.content.length > 50 then "..." else "")) ++ "\"") ∧
    (∀ (env : Env) (store : Store) (userId : String) (dto : CreateCommentDto)
      (newId : OId) (now : Nat) (notifOk : Bool) (pid : OId)
      (parent : CommentRec),
      isValidObjectId dto.product_id = true →
      dto.parent_id = some pid →
      isValidObjectId pid = true →
      findActive store pid = some parent →
      parent.parent_id = none →
      idsNodup store →
      freshId store newId →
      parent.user_id = userId →
      (createComment env store userId dto newId now notifOk).persisted = [] ∧
        (createComment env store userId dto newId now notifOk).pushes = [] ∧
        (createComment env store userId dto newId now notifOk).result =
          .ok (some (newCommentRec userId dto newId now))) := by
  constructor
  · intro env store userId dto newId now pid parent hv hp hvp hfind htop hnd
      hfresh hne
    have heq := createComment_reply_eq env store userId dto newId now true
      hv hp hvp hfind htop hnd hfresh
    have hnb : (parent.user_id != userId) = true := by
      simpa [bne_iff_ne] using hne
    rw [heq, if_pos hnb, if_pos rfl]
    exact ⟨rfl, rfl, rfl, rfl, rfl, rfl, rfl, rfl, rfl⟩
  · intro env store userId dto newId now notifOk pid parent hv hp hvp hfind
      htop hnd hfresh hself
    have heq := createComment_reply_eq env store userId dto newId now notifOk
      hv hp hvp hfind htop hnd hfresh
    have hnb : (parent.user_id != userId) = false := by
      simp [hself]
    rw [heq, if_neg (by simp [hnb])]
    exact ⟨rfl, rfl, rfl⟩

theorem c5_witness :
    ((createComment env0 store1 "u2" ⟨oidP, "I agree", some oidA⟩ oidB 2
          true).result =
        .ok (some (newCommentRec "u2" ⟨oidP, "I agree", some oidA⟩ oidB 2)) ∧
      (createComment env0 store1 "u2" ⟨oidP, "I agree", some oidA⟩ oidB 2
          true).persisted =
        [mkNotifRecord env0 "u2" "I agree" oidB oidA topComment1
          (newCommentRec "u2" ⟨oidP, "I agree", some oidA⟩ oidB 2)] ∧
      (createComment env0 store1 "u2" ⟨oidP, "I agree", some oidA⟩ oidB 2
          true).pushes =
        [mkPush env0 "I agree" oidA topComment1
          (newCommentRec "u2" ⟨oidP, "I agree", some oidA⟩ oidB 2)] ∧
      (mkNotifRecord env0 "u2" "I agree" oidB oidA topComment1
        (newCommentRec "u2" ⟨oidP, "I agree", some oidA⟩ oidB 2)).user_id =
          topComment1.user_id ∧
      (mkNotifRecord env0 "u2" "I agree" oidB oidA topComment1
        (newCommentRec "u2" ⟨oidP, "I agree", some oidA⟩ oidB 2)).actor_id =
          "u2" ∧
      (mkPush env0 "I agree" oidA topComment1
        (newCommentRec "u2" ⟨oidP, "I agree", some oidA⟩ oidB 2)).target_user =
          topComment1.user_id ∧
      (mkPush env0 "I agree" oidA topComment1
        (newCommentRec "u2" ⟨oidP, "I agree", some oidA⟩ oidB 2)).actor_id =
          "u2" ∧
      (mkPush env0 "I agree" oidA topComment1
        (newCommentRec "u2" ⟨oidP, "I agree", some oidA⟩ oidB 2)).actor_name =
          (env0.users "u2").name ∧
      (mkPush env0 "I agree" oidA topComment1
        (newCommentRec "u2" ⟨oidP, "I agree", some oidA⟩ oidB 2)).message =
          (env0.users "u2").name ++ " đã trả lời: \"" ++
            (("I agree" : String).take 50 ++
              (if ("I agree" : String).length > 50 then "..." else "")) ++
            "\"") ∧
    ((createComment env0 store1 "u1" ⟨oidP, "my own", some oidA⟩ oidB 2
          true).persisted = [] ∧
      (createComment env0 store1 "u1" ⟨oidP, "my own", some oidA⟩ oidB 2
          true).pushes = [] ∧
      (createComment env0 store1 "u1" ⟨oidP, "my own", some oidA⟩ oidB 2
          true).result =
        .ok (some (newCommentRec "u1" ⟨oidP, "my own", some oidA⟩ oidB 2))) :=
  ⟨c5_reply_notification.1 env0 store1 "u2" ⟨oidP, "I agree", some oidA⟩
      oidB 2 oidA topComment1 (by decide) rfl (by decide) (by decide) rfl
      (by decide) (by decide) (by decide),
   c5_reply_notification.2 env0 store1 "u1" ⟨oidP, "my own", some oidA⟩
      oidB 2 true oidA topComment1 (by decide) rfl (by decide) (by decide)
      rfl (by decide) (by decide) rfl⟩

/-- C9 (implicit): `createComment` never compares the supplied `product_id`
to the parent's; a reply under an existing non-deleted top-level parent
succeeds even when its `product_id` differs from the parent's, leaving a
stored reply and its parent referencing different products. -/
theorem c9_no_cross_product_check :
    ∀ (env : Env) (store : Store) (userId : String) (dto : CreateCommentDto)
      (newId : OId) (now : Nat) (pid : OId) (parent : CommentRec),
      isValidObjectId dto.product_id = true →
      dto.parent_id = some pid →
      isValidObjectId pid = true →
      findActive store pid = some parent →
      parent.parent_id = none →
      idsNodup store →
      freshId store newId →
      dto.product_id ≠ parent.product_id →
      (createComment env store userId dto newId now true).result =
          .ok (some (newCommentRec userId dto newId now)) ∧
        findById (createComment env store userId dto newId now true).store
          newId = some (newCommentRec userId dto newId now) ∧
        (newCommentRec userId dto newId now).product_id = dto.product_id ∧
        findById (createComment env store userId dto newId now true).store
          pid = some (addReplyTo newId parent) ∧
        (addReplyTo newId parent).product_id = parent.product_id ∧
        (newCommentRec userId dto newId now).product_id ≠
          (addReplyTo newId parent).product_id := by
  intro env store userId dto newId now pid parent hv hp hvp hfind htop hnd
    hfresh hdiff
  obtain ⟨hres, hstore⟩ := createComment_reply_success env store userId dto
    newId now hv hp hvp hfind htop hnd hfresh
  obtain ⟨h1, h2⟩ :=
    findById_after_reply (newCommentRec userId dto newId now) rfl hfind hnd
      hfresh
  refine ⟨hres, ?_, rfl, ?_, rfl, hdiff⟩
  · rw [hstore]; exact h1
  · rw [hstore]; exact h2

theorem c9_witness :
    (createComment env0 store1 "u2" ⟨oidQ, "other product", some oidA⟩ oidB
        2 true).result =
      .ok (some (newCommentRec "u2" ⟨oidQ, "other product", some oidA⟩
        oidB 2)) ∧
    findById (createComment env0 store1 "u2"
        ⟨oidQ, "other product", some oidA⟩ oidB 2 true).store oidB =
      some (newCommentRec "u2" ⟨oidQ, "other product", some oidA⟩ oidB 2) ∧
    (newCommentRec "u2" ⟨oidQ, "other product", some oidA⟩ oidB
        2).product_id = oidQ ∧
    findById (createComment env0 store1 "u2"
        ⟨oidQ, "other product", some oidA⟩ oidB 2 true).store oidA =
      some (addReplyTo oidB topComment1) ∧
    (addReplyTo oidB topComment1).product_id = topComment1.product_id ∧
    (newCommentRec "u2" ⟨oidQ, "other product", some oidA⟩ oidB
        2).product_id ≠ (addReplyTo oidB topComment1).product_id :=
  c9_no_cross_product_check env0 store1 "u2"
    ⟨oidQ, "other product", some oidA⟩ oidB 2 oidA topComment1
    (by decide) rfl (by decide) (by decide) rfl (by decide) (by decide)
    (by decide)

/-- C4: a successful delete of a reply whose parent record exists removes the
deleted id from the parent's `replies` and recomputes `reply_count` as the
length of the filtered array, so afterwards the parent satisfies
`reply_count = len(replies)`. -/
theorem c4_delete_reply_recount :
    ∀ (store : Store) (cid userId : String) (isAdmin : Bool)
      (c parent : CommentRec) (pid : OId),
      isValidObjectId cid = true →
      idsNodup store →
      repliesWellFormed store →
      findActive store cid = some c →
      (isAdmin = true ∨ c.user_id = userId) →
      c.parent_id = some pid →
      findById store pid = some parent →
      (deleteComment store cid userId isAdmin).result =
          .ok "Comment deleted successfully" ∧
        findById (deleteComment store cid userId isAdmin).store pid =
          some (removeReplyFrom cid parent) ∧
        (removeReplyFrom cid parent).replies =
          parent.replies.filter (fun i => i != cid) ∧
        (removeReplyFrom cid parent).reply_count =
          (removeReplyFrom cid parent).replies.length := by
  intro store cid userId isAdmin c parent pid hvc hnd hwf hfind hauth hpar
    hpfind
  obtain ⟨hcm, hcid, hcdel⟩ := findActive_spec hfind
  obtain ⟨hpm, hpid⟩ := findById_spec hpfind
  have hpc : pid ≠ cid := by
    obtain ⟨p, hpmem, hpid', hptop⟩ := hwf c hcm pid hpar
    intro h
    have hpeq : p = c :=
      eq_of_mem_idsNodup hnd hpmem hcm (by rw [hpid', h, hcid])
    rw [hpeq] at hptop
    rw [hptop] at hpar
    cases hpar
  have hguard : (!isAdmin && c.user_id != userId) = false := by
    rcases hauth with h | h
    · rw [h]; simp
    · simp [h]
  have hs1 : findById
      (updateById store c._id (fun x => { x with is_deleted := true })) pid =
      some parent := by
    rw [findById_updateById store c._id pid
      (fun x => { x with is_deleted := true }) (fun _ => rfl), hpfind]
    have hne : (parent._id == c._id) = false := by
      simp only [beq_eq_false_iff_ne, ne_eq, hpid, hcid]
      exact hpc
    simp only [Option.map_some', hne, Bool.false_eq_true, if_false]
  have hs2 : findById
      (updateById
        (updateById store c._id (fun x => { x with is_deleted := true })) pid
        (fun x => { x with replies := parent.replies.filter (fun i => i != cid), reply_count := (parent.replies.filter (fun i => i != cid)).length }))
      pid = some (removeReplyFrom cid parent) := by
    rw [findById_updateById
      (updateById store c._id (fun x => { x with is_deleted := true })) pid pid
      (fun x => { x with replies := parent.replies.filter (fun i => i != cid), reply_count := (parent.replies.filter (fun i => i != cid)).length })
      (fun _ => rfl), hs1]
    simp [hpid, removeReplyFrom]
  simp only [deleteComment, hvc, Bool.not_true, Bool.false_eq_true, if_false,
    hfind, hguard, hpar, hs1]
  refine ⟨?_, ?_, ?_, ?_⟩
  · trivial
  · exact hs2
  · trivial
  · trivial

theorem c4_witness :
    (deleteComment store2L oidB "u2" false).result =
        .ok "Comment deleted successfully" ∧
      findById (deleteComment store2L oidB "u2" false).store oidA =
        some (removeReplyFrom oidB topComment) ∧
      (removeReplyFrom oidB topComment).replies =
        topComment.replies.filter (fun i => i != oidB) ∧
      (removeReplyFrom oidB topComment).reply_count =
        (removeReplyFrom oidB topComment).replies.length :=
  c4_delete_reply_recount store2L oidB "u2" false replyComment topComment
    oidA (by decide) (by decide) (by decide) (by decide) (Or.inr rfl) rfl
    (by decide)

/-- C6: an update attempt by a non-author, and a delete attempt by a
non-author non-admin caller, each fail with `Forbidden` and leave the store
(hence the record) completely unchanged. -/
theorem c6_forbidden_leaves_store_unchanged :
    (∀ (store : Store) (cid userId : String) (content? : Option String)
      (c : CommentRec),
      isValidObjectId cid = true →
      findActive store cid = some c →
      c.user_id ≠ userId →
      updateComment store cid userId content? =
        ⟨.error (.forbidden "You are not allowed to update this comment"),
          store⟩) ∧
    (∀ (store : Store) (cid userId : String) (c : CommentRec),
      isValidObjectId cid = true →
      findActive store cid = some c →
      c.user_id ≠ userId →
      deleteComment store cid userId false =
        ⟨.error (.forbidden "You are not allowed to delete this comment"),
          store⟩) := by
  constructor
  · intro store cid userId content? c hvc hfind hne
    have hb : (c.user_id != userId) = true := by simpa [bne_iff_ne] using hne
    simp only [updateComment, hvc, Bool.not_true, Bool.false_eq_true, if_false,
      hfind, hb, if_true]
  · intro store cid userId c hvc hfind hne
    have hb : (!false && c.user_id != userId) = true := by
      simpa [bne_iff_ne] using hne
    simp only [deleteComment, hvc, Bool.not_true, Bool.false_eq_true, if_false,
      hfind, hb, if_true]

theorem c6_witness :
    updateComment store2L oidA "u9" (some "edited") =
        ⟨.error (.forbidden "You are not allowed to update this comment"),
          store2L⟩ ∧
      deleteComment store2L oidA "u9" false =
        ⟨.error (.forbidden "You are not allowed to delete this comment"),
          store2L⟩ :=
  ⟨c6_forbidden_leaves_store_unchanged.1 store2L oidA "u9" (some "edited")
      topComment (by decide) (by decide) (by decide),
   c6_forbidden_leaves_store_unchanged.2 store2L oidA "u9" topComment
      (by decide) (by decide) (by decide)⟩

/-- C7: deleting a comment id whose record is already soft-deleted fails with
`NotFound` — the active lookup's filter excludes deleted records — and the
store is returned unchanged (no second soft delete, no parent update), for
any caller and any admin flag. -/
theorem c7_delete_already_deleted_notfound :
    ∀ (store : Store) (cid userId : String) (isAdmin : Bool) (c : CommentRec),
      isValidObjectId cid = true →
      idsNodup store →
      c ∈ store → c._id = cid → c.is_deleted = true →
      deleteComment store cid userId isAdmin =
        ⟨.error (.notFound "Comment not found"), store⟩ := by
  intro store cid userId isAdmin c hvc hnd hm hid hdel
  have hnone := findActive_none_of_deleted hnd hm hid hdel
  simp only [deleteComment, hvc, Bool.not_true, Bool.false_eq_true, if_false,
    hnone]

theorem c7_witness :
    deleteComment storeOrphan oidA "u1" true =
      ⟨.error (.notFound "Comment not found"), storeOrphan⟩ :=
  c7_delete_already_deleted_notfound storeOrphan oidA "u1" true deletedTop
    (by decide) (by decide) (by decide) rfl rfl

/-- `adminReplyComment` = `createComment` on the rebuilt dto (helper shared by
the wrapper claims). -/
lemma adminReply_eq_create (env : Env) (store : Store) (cid adminId : String)
    (dto : CreateCommentDto) (newId : OId) (now : Nat) (notifOk : Bool)
    {parent : CommentRec}
    (hvc : isValidObjectId cid = true)
    (hfind : findActive store cid = some parent) :
    adminReplyComment env store cid adminId dto newId now notifOk =
      createComment env store adminId
        ⟨parent.product_id, dto.content, some cid⟩ newId now notifOk := by
  simp only [adminReplyComment, hvc, Bool.not_true, Bool.false_eq_true,
    if_false, hfind]

/-- C8: `adminReplyComment` on an existing non-deleted target ignores the
request body's `product_id` entirely: it behaves exactly as `createComment`
called with the target's own `product_id`, the admin's user id, the request
content, and `parent_id` equal to the target id.  In particular (second
conjunct) when the target is itself a reply the wrapper inherits
`createComment`'s two-level rejection, leaving the store untouched. -/
theorem c8_admin_reply_forwards :
    (∀ (env : Env) (store : Store) (cid adminId : String)
      (dto : CreateCommentDto) (newId : OId) (now : Nat) (notifOk : Bool)
      (parent : CommentRec),
      isValidObjectId cid = true →
      findActive store cid = some parent →
      adminReplyComment env store cid adminId dto newId now notifOk =
        createComment env store adminId
          ⟨parent.product_id, dto.content, some cid⟩ newId now notifOk) ∧
    (∀ (env : Env) (store : Store) (cid adminId : String)
      (dto : CreateCommentDto) (newId : OId) (now : Nat) (notifOk : Bool)
      (parent : CommentRec) (gp : OId),
      isValidObjectId cid = true →
      findActive store cid = some parent →
      isValidObjectId parent.product_id = true →
      parent.parent_id = some gp →
      adminReplyComment env store cid adminId dto newId now notifOk =
        ⟨.error (.invalidArgument
          "Cannot reply to a reply. Maximum 2 levels allowed"),
          store, [], []⟩) := by
  constructor
  · intro env store cid adminId dto newId now notifOk parent hvc hfind
    exact adminReply_eq_create env store cid adminId dto newId now notifOk
      hvc hfind
  · intro env store cid adminId dto newId now notifOk parent gp hvc hfind
      hvprod hdeep
    rw [adminReply_eq_create env store cid adminId dto newId now notifOk
      hvc hfind]
    exact createComment_depth_reject env store adminId
      ⟨parent.product_id, dto.content, some cid⟩ newId now notifOk
      hvprod rfl hvc hfind hdeep

theorem c8_witness :
    adminReplyComment env0 store2L oidA "admin1" ⟨oidQ, "hello", none⟩ oidC
        3 true =
      createComment env0 store2L "admin1"
        ⟨topComment.product_id, "hello", some oidA⟩ oidC 3 true ∧
    adminReplyComment env0 store2L oidB "admin1" ⟨oidQ, "hello", none⟩ oidC
        3 true =
      ⟨.error (.invalidArgument
        "Cannot reply to a reply. Maximum 2 levels allowed"),
        store2L, [], []⟩ :=
  ⟨c8_admin_reply_forwards.1 env0 store2L oidA "admin1" ⟨oidQ, "hello", none⟩
      oidC 3 true topComment (by decide) (by decide),
   c8_admin_reply_forwards.2 env0 store2L oidB "admin1" ⟨oidQ, "hello", none⟩
      oidC 3 true replyComment oidA (by decide) (by decide) (by decide) rfl⟩

lemma ceilPages_zero (limit : Nat) : ceilPages 0 limit = 0 := by
  unfold ceilPages
  cases limit with
  | zero => rfl
  | succ n =>
      simp only [Nat.zero_add, Nat.succ_sub_one]
      exact Nat.div_eq_of_lt (Nat.lt_succ_self n)

/-- C10, as stated, is false on the code: `getReplies` never looks up the
target comment, so for a well-formed id whose record is soft-deleted it does
not return an empty page — the target's still-live replies are returned.
Concrete run: the parent is soft-deleted but its reply is live; the page
holds that reply and `total = 1`, not `0`. -/
theorem c10_counterexample :
    isValidObjectId oidA = true ∧
    findActive storeOrphan oidA = none ∧
    getReplies storeOrphan oidA 1 10 =
      .ok ⟨[replyComment], ⟨1, 1, 10, 1⟩⟩ := by decide

/-- C10 (amended): (1) a `product_id` filter that is not a well-formed object
id is silently dropped by `getAllCommentsAdmin` — the result is exactly that
of the unfiltered call; (2) `getReplies` on a well-formed id never fails with
`NotFound`: it returns a success page whose `total` counts the non-deleted
comments whose `parent_id` equals the id — in particular (3) when no such
comment exists (e.g. the id matches no record and nothing references it) the
page is empty with `total = 0`; but when the id's record is merely
soft-deleted its live replies are still returned. -/
theorem c10_filter_dropped_replies_paged :
    (∀ (store : Store) (page limit : Nat) (p : String)
      (search? : Option String),
      isValidObjectId p = false →
      getAllCommentsAdmin store page limit (some p) search? =
        getAllCommentsAdmin store page limit none search?) ∧
    (∀ (store : Store) (cid : String) (page limit : Nat),
      isValidObjectId cid = true →
      ∃ pr, getReplies store cid page limit = .ok pr ∧
        pr.pagination.total =
          (store.filter
            (fun c => c.parent_id == some cid && !c.is_deleted)).length) ∧
    (∀ (store : Store) (cid : String) (page limit : Nat),
      isValidObjectId cid = true →
      (∀ c ∈ store, c.parent_id = some cid → c.is_deleted = true) →
      getReplies store cid page limit = .ok ⟨[], ⟨0, page, limit, 0⟩⟩) := by
  refine ⟨?_, ?_, ?_⟩
  · intro store page limit p search? hinv
    simp only [getAllCommentsAdmin, hinv, Bool.and_false, Bool.false_eq_true,
      if_false]
  · intro store cid page limit hvc
    refine ⟨⟨pageSlice page limit (sortComments byCreatedAsc
        (store.filter (fun c => c.parent_id == some cid && !c.is_deleted))),
      ⟨(store.filter
          (fun c => c.parent_id == some cid && !c.is_deleted)).length,
        page, limit,
        ceilPages (store.filter
          (fun c => c.parent_id == some cid && !c.is_deleted)).length
          limit⟩⟩, ?_, rfl⟩
    simp only [getReplies, hvc, Bool.not_true, Bool.false_eq_true, if_false]
  · intro store cid page limit hvc hnone
    have hfil : store.filter
        (fun c => c.parent_id == some cid && !c.is_deleted) = [] := by
      rw [List.filter_eq_nil_iff]
      intro c hc
      simp only [Bool.and_eq_true, beq_iff_eq, Bool.not_eq_true', not_and]
      intro hpid
      rw [hnone c hc hpid]
      simp
    simp only [getReplies, hvc, Bool.not_true, Bool.false_eq_true, if_false,
      hfil]
    simp [pageSlice, sortComments, ceilPages_zero]

theorem c10_witness :
    getAllCommentsAdmin store2L 1 10 (some "not-an-id") none =
        getAllCommentsAdmin store2L 1 10 none none ∧
      (∃ pr, getReplies store2L oidA 1 10 = .ok pr ∧
        pr.pagination.total =
          (store2L.filter
            (fun c => c.parent_id == some oidA && !c.is_deleted)).length) ∧
      getReplies store2L oidC 1 10 = .ok ⟨[], ⟨0, 1, 10, 0⟩⟩ :=
  ⟨c10_filter_dropped_replies_paged.1 store2L 1 10 "not-an-id" none
      (by decide),
   c10_filter_dropped_replies_paged.2.1 store2L oidA 1 10 (by decide),
   c10_filter_dropped_replies_paged.2.2 store2L oidC 1 10 (by decide)
      (by decide)⟩
